import Mathlib

/-!
Verification of the EIP-1193 injected-provider transport
(`ethers-providers/src/rpc/transports/eip1193.rs`).

The transport is a thin bridge between a generic JSON-RPC client trait and a
host-injected provider capability (`window.ethereum`).  We shallowly embed the
Rust code: `JsValue` becomes a JSON value tree, the provider capability becomes
a function from request arguments to a resolve-or-reject result, serde
encode/decode dictionaries become explicit function parameters, and a Rust
panic (`unwrap` on a failed deserialization) becomes a distinguished outcome
constructor.
-/

/-- A JavaScript value as seen through the serde/JSON bridge
(`gloo_utils::format::JsValueSerdeExt`): the values that can cross the
wasm-bindgen boundary via `into_serde`/`from_serde` are exactly JSON trees. -/
inductive JsValue where
  | null
  | bool (b : Bool)
  | num (n : Int)
  | str (s : String)
  | arr (elems : List JsValue)
  | obj (fields : List (String × JsValue))

/-- Embeds `JsValue::is_array` from wasm-bindgen: true exactly on array values. -/
def JsValue.is_array : JsValue → Bool
  | .arr _ => true
  | _ => false

/-- Embeds `js_sys::Array::from(&v)` as used at eip1193.rs:124, where it is only
reached when `v.is_array()` holds: the element list of an array value. -/
def JsValue.to_array : JsValue → List JsValue
  | .arr elems => elems
  | _ => []

/-- Embeds `v.into_serde::<String>()` (eip1193.rs:106): JSON-stringify the value and
parse it as a Rust `String`; succeeds exactly when the value is a string. -/
def JsValue.into_serde_string : JsValue → Option String
  | .str s => some s
  | _ => none

/-- The structured JSON-RPC error payload (`super::common::JsonRpcError`,
declared outside this file's source). Modelled from the spec: a rejection
carrying a numeric code, a message and optional auxiliary data. -/
structure JsonRpcError where
  code : Int
  message : String
  data : Option JsValue

/-- The transport error enum `Eip1193Error` (eip1193.rs:40-61). -/
inductive Eip1193Error where
  /-- Thrown if the request failed: `JsValueError(String)`. -/
  | JsValueError (s : String)
  /-- Thrown if no `window.ethereum` is found: `JsNoEthereum`. -/
  | JsNoEthereum
  /-- Thrown when the ethereum response cannot be parsed: `JsParseError`. -/
  | JsParseError
  /-- Structured JSON-RPC error variant: `JsonRpcError(#[from] JsonRpcError)`. -/
  | JsonRpcError (e : JsonRpcError)
  /-- Serde JSON error variant: `SerdeJson(#[from] serde_json::Error)`,
  modelled by its message string. -/
  | SerdeJson (msg : String)

/-- Embeds `RequestArguments` (eip1193.rs:14-18): the `{method, params}` shape handed
to the capability, with `params` a `js_sys::Array`. -/
structure RequestArguments where
  method : String
  params : List JsValue

/-- The injected provider capability (the `Ethereum` extern type,
eip1193.rs:69-83): its `request` entry point is an asynchronous operation that
either resolves with a value or rejects with a value.  We model it as a
function from the request arguments to `Except rejection resolution`. -/
structure Ethereum where
  respond : RequestArguments → Except JsValue JsValue

/-- The result of `get_provider_js()` (eip1193.rs:63-67), which is
`Result<Option<Ethereum>, JsValue>`: the lookup may throw, may find nothing,
or may yield the capability. -/
abbrev ProviderLookup := Except JsValue (Option Ethereum)

/-- Embeds `Ethereum::default` (eip1193.rs:85-93): `if let Ok(Some(eth)) = get_provider_js()
{ Ok(eth) } else { Err(Eip1193Error::JsNoEthereum) }`. -/
def Ethereum.default (lookup : ProviderLookup) : Except Eip1193Error Ethereum :=
  match lookup with
  | .ok (some eth) => .ok eth
  | _ => .error .JsNoEthereum

/-- Embeds `impl From<JsValue> for Eip1193Error` (eip1193.rs:104-108):
`Eip1193Error::JsValueError(src.into_serde::<String>().unwrap())`.
The `unwrap` panics when `into_serde::<String>` fails, i.e. on every
rejection value that is not a string; we model the panic as `none`. -/
def Eip1193Error.from_js_value (src : JsValue) : Option Eip1193Error :=
  match src.into_serde_string with
  | some s => some (.JsValueError s)
  | none => none

/-- The caller's generic provider error type (`crate::provider::ProviderError`,
declared outside this file's source). Modelled from the spec: only the two
variants targeted by the transport's conversion are needed — the generic
JSON-RPC client error that wraps the transport error, and the custom
string-carrying error. -/
inductive ProviderError where
  | JsonRpcClientError (e : Eip1193Error)
  | CustomError (s : String)

/-- Whether a `ProviderError` is the custom/"no backend" string variant. -/
def ProviderError.isCustom : ProviderError → Bool
  | .CustomError _ => true
  | _ => false

/-- Embeds `impl From<Eip1193Error> for ProviderError` (eip1193.rs:95-102):
`JsValueError(s) => CustomError(s)`, everything else
`=> JsonRpcClientError(Box::new(src))`. -/
def ProviderError.from_eip1193 (src : Eip1193Error) : ProviderError :=
  match src with
  | .JsValueError s => .CustomError s
  | e => .JsonRpcClientError e

/-- The transport itself (eip1193.rs:33-38): `pub struct Eip1193 {}` — a unit
struct that carries no provider handle and no other state; every parameter is
fetched whenever it is needed. -/
structure Eip1193 where

/-- Embeds `Eip1193::new` (eip1193.rs:144-146). -/
def Eip1193.new : Eip1193 := {}

/-- Outcome of running the `request` body: a decoded result, a transport
error, or a Rust panic (reachable through the `unwrap` inside
`From<JsValue> for Eip1193Error`). -/
inductive RequestOutcome (R : Type) where
  | ok (r : R)
  | err (e : Eip1193Error)
  | panicked

/-- Embeds `Eip1193::request` (eip1193.rs:116-132).  The serde dictionaries of the
generic signature `request<T: Serialize, R: DeserializeOwned>` are passed
explicitly: `encode` is `JsValue::from_serde(&params)` for `T` (failing with a
`serde_json::Error` message) and `decode` is `result.into_serde::<R>()`.
Step by step, exactly as the source:
`Ethereum::default()?`; `JsValue::from_serde(&params)?`;
`if params.is_array() { Array::from(&params) } else { Array::new() }`;
`ethereum.request(RequestArguments{..}).await?` (the `?` converts a rejection
via `From<JsValue>`, which panics on non-string rejections);
`result.into_serde()` with `Err(_) => JsParseError`. -/
def Eip1193.request {T R : Type} (_self : Eip1193)
    (encode : T → Except String JsValue) (decode : JsValue → Option R)
    (lookup : ProviderLookup) (method : String) (params : T) :
    RequestOutcome R :=
  match Ethereum.default lookup with
  | .error e => .err e
  | .ok ethereum =>
    match encode params with
    | .error msg => .err (.SerdeJson msg)
    | .ok paramsVal =>
      let js_params := if paramsVal.is_array then paramsVal.to_array else []
      match ethereum.respond { method := method, params := js_params } with
      | .error rejection =>
        match Eip1193Error.from_js_value rejection with
        | some e => .err e
        | none => .panicked
      | .ok result =>
        match decode result with
        | some response => .ok response
        | none => .err .JsParseError

/-- Embeds `Eip1193::is_available` (eip1193.rs:137-142):
`Ethereum::default().is_ok()`. -/
def Eip1193.is_available (lookup : ProviderLookup) : Bool :=
  match Ethereum.default lookup with
  | .ok _ => true
  | .error _ => false

/-- Host-side listener bookkeeping for `on`: the wasm closure heap (which
closure ids are still alive on the Rust side) together with the capability's
listener table (event name, closure id) in registration order.  `nextId` is
the next fresh closure id. -/
structure ListenerState where
  nextId : Nat
  alive : List Nat
  registrations : List (String × Nat)
deriving Repr, DecidableEq

/-- Embeds `Eip1193::on` (eip1193.rs:148-152):
`let ethereum = Ethereum::default()?;`
`ethereum.on(event, &Closure::wrap(callback));`
`Ok(())`.
`Closure::wrap(callback)` allocates a live closure cell; the capability's `on`
records the registration; then, because the `Closure` is a temporary that is
never stored or forgotten, Rust drops it at the end of the statement, and
wasm-bindgen's `Drop for Closure` invalidates the cell (a later invocation
from JS raises instead of running the callback). -/
def Eip1193.on (_self : Eip1193) (lookup : ProviderLookup)
    (st : ListenerState) (event : String) : Except Eip1193Error ListenerState :=
  match Ethereum.default lookup with
  | .error e => .error e
  | .ok _ethereum =>
    let cid := st.nextId
    let wrapped : ListenerState :=
      { nextId := cid + 1, alive := st.alive ++ [cid],
        registrations := st.registrations }
    let registered : ListenerState :=
      { wrapped with registrations := wrapped.registrations ++ [(event, cid)] }
    let after_drop : ListenerState :=
      { registered with alive := registered.alive.filter (fun i => i != cid) }
    .ok after_drop

/-- Host emission loop over a listener table: invoke, in order, every listener
registered for `event` with `payload`.  Per wasm-bindgen semantics, invoking a
closure whose Rust side has been dropped raises a JS error instead of running
the callback; otherwise the delivery `(closure id, payload)` is recorded. -/
def fireListeners (alive : List Nat) (regs : List (String × Nat))
    (event : String) (payload : JsValue) :
    Except String (List (Nat × JsValue)) :=
  match regs with
  | [] => .ok []
  | (ev, cid) :: rest =>
    if ev = event then
      if alive.contains cid then
        match fireListeners alive rest event payload with
        | .ok ds => .ok ((cid, payload) :: ds)
        | .error e => .error e
      else .error "closure invoked after being dropped"
    else fireListeners alive rest event payload

/-- The host capability emits `event` with `payload` against the current
listener state. -/
def ListenerState.fireEvent (st : ListenerState) (event : String)
    (payload : JsValue) : Except String (List (Nat × JsValue)) :=
  fireListeners st.alive st.registrations event payload

/-- A capability stub that echoes back whatever params it receives, resolving
with them as an array. -/
def echoCap : Ethereum := ⟨fun args => .ok (.arr args.params)⟩

/-- A capability stub that rejects every request with the fixed value `v`. -/
def rejectCap (v : JsValue) : Ethereum := ⟨fun _ => .error v⟩

/-- The identity serde encoder: the caller's params are already given as their
serialized JSON form. -/
def encodeId : JsValue → Except String JsValue := Except.ok

/-- The identity serde decoder for a caller expecting a raw JSON value. -/
def decodeId : JsValue → Option JsValue := some

/-! ## Theorems settling the claims -/

/-- A structured JSON-RPC rejection value: the object
`{code: 4001, message: "User rejected"}` from the spec's error-passthrough
property. -/
def userRejected : JsValue :=
  .obj [("code", .num 4001), ("message", .str "User rejected")]

/-- Claim C1: the spec says a capability rejecting with the structured object
`{code: 4001, message: "User rejected"}` makes `request` return the structured
RPC error variant with code, message and data passed through.  The code
instead panics: the rejection reaches `From<JsValue> for Eip1193Error`, whose
`into_serde::<String>().unwrap()` fails on a JSON object, so `request` never
produces the `JsonRpcError` variant on this input. -/
theorem structured_rejection_panics :
    Eip1193.request Eip1193.new encodeId decodeId
      (.ok (some (rejectCap userRejected))) "eth_requestAccounts" (.arr [])
      = .panicked ∧
    Eip1193Error.from_js_value userRejected = none :=
  ⟨rfl, rfl⟩

/-- Claim C2 (counterexample): against the echo stub, `request` with the
non-sequence params `42` yields the empty array (the normalization at
eip1193.rs:124 replaces any non-array params with `Array::new()`), not `42`,
so the round-trip property fails for non-sequence serializable values. -/
theorem echo_roundtrip_fails_on_non_sequence :
    Eip1193.request Eip1193.new encodeId decodeId (.ok (some echoCap))
      "eth_call" (.num 42) = .ok (.arr []) ∧
    ¬ (Eip1193.request Eip1193.new encodeId decodeId (.ok (some echoCap))
      "eth_call" (.num 42) = .ok (.num 42)) :=
  ⟨rfl, fun h => JsValue.noConfusion (RequestOutcome.ok.inj h)⟩

/-- Claim C2 (amended): against the echo stub, `request(m, p)` decodes back to
`p` for every serializable `p` whose serialized value is a sequence; a
non-sequence `p` is normalized to the empty sequence first and so does not
round-trip. -/
theorem echo_roundtrip_for_sequences (m : String) (p : JsValue)
    (h : p.is_array = true) :
    Eip1193.request Eip1193.new encodeId decodeId (.ok (some echoCap)) m p
      = .ok p := by
  cases p with
  | arr elems => rfl
  | null => exact nomatch h
  | bool b => exact nomatch h
  | num n => exact nomatch h
  | str s => exact nomatch h
  | obj fields => exact nomatch h

/-- Witness for C2's amended theorem at the concrete sequence `[1]`. -/
theorem echo_roundtrip_for_sequences_witness :
    Eip1193.request Eip1193.new encodeId decodeId (.ok (some echoCap))
      "eth_call" (.arr [.num 1]) = .ok (.arr [.num 1]) :=
  echo_roundtrip_for_sequences "eth_call" (.arr [.num 1]) rfl

/-- Claim C3: for every capability and decoder, a `request` whose serialized
params is not a sequence behaves exactly as if the empty sequence had been
passed (the empty sequence is transmitted, and no shape error is raised); and
against the echo stub a sequence params is transmitted unchanged and in
order. -/
theorem params_normalization (f : RequestArguments → Except JsValue JsValue)
    (R : Type) (decode : JsValue → Option R) (m : String) (v : JsValue)
    (xs : List JsValue) :
    (v.is_array = false →
      Eip1193.request Eip1193.new encodeId decode (.ok (some ⟨f⟩)) m v
        = Eip1193.request Eip1193.new encodeId decode (.ok (some ⟨f⟩)) m
            (.arr [])) ∧
    Eip1193.request Eip1193.new encodeId decodeId (.ok (some echoCap)) m
      (.arr xs) = .ok (.arr xs) := by
  refine ⟨fun h => ?_, rfl⟩
  cases v with
  | arr elems => exact nomatch h
  | null => rfl
  | bool b => rfl
  | num n => rfl
  | str s => rfl
  | obj fields => rfl

/-- Witness for C3 at the non-sequence value `7` and the sequence
`["a", "b"]`. -/
theorem params_normalization_witness :
    Eip1193.request Eip1193.new encodeId decodeId (.ok (some echoCap)) "m"
      (.num 7)
      = Eip1193.request Eip1193.new encodeId decodeId (.ok (some echoCap)) "m"
          (.arr []) ∧
    Eip1193.request Eip1193.new encodeId decodeId (.ok (some echoCap)) "m"
      (.arr [.str "a", .str "b"]) = .ok (.arr [.str "a", .str "b"]) :=
  ⟨(params_normalization echoCap.respond JsValue decodeId "m" (.num 7)
      [.str "a", .str "b"]).1 rfl,
   (params_normalization echoCap.respond JsValue decodeId "m" (.num 7)
      [.str "a", .str "b"]).2⟩

/-- Claim C4 (counterexample): the conversion into `ProviderError` does not
map `JsNoEthereum` (the NoProvider condition) to the custom variant — it lands
in the generic client-error variant — while the unstructured host rejection
`JsValueError "boom"` is the conversion that lands in the custom variant. -/
theorem provider_error_mapping_swap :
    (ProviderError.from_eip1193 .JsNoEthereum).isCustom = false ∧
    (ProviderError.from_eip1193 (.JsValueError "boom")).isCustom = true :=
  ⟨rfl, rfl⟩

/-- Claim C4 (amended): the conversion maps an unstructured host rejection
(`JsValueError s`) to the custom error carrying the stringified payload, and
maps `JsNoEthereum` (NoProvider) to the generic JSON-RPC client error wrapping
the transport error — the opposite assignment from the spec's table. -/
theorem provider_error_mapping (s : String) :
    ProviderError.from_eip1193 (.JsValueError s) = .CustomError s ∧
    ProviderError.from_eip1193 .JsNoEthereum
      = .JsonRpcClientError .JsNoEthereum :=
  ⟨rfl, rfl⟩

/-- Claim C5: `is_available` is true exactly when the capability resolves, and
whenever it is false every `request` — for every serializable type, decoder,
method and params — fails with `JsNoEthereum` (the Unavailable/NoProvider
error). -/
theorem availability_consistency (lookup : ProviderLookup) :
    (Eip1193.is_available lookup = true
      ↔ ∃ eth, Ethereum.default lookup = .ok eth) ∧
    (Eip1193.is_available lookup = false →
      ∀ (T R : Type) (encode : T → Except String JsValue)
        (decode : JsValue → Option R) (t : Eip1193) (m : String) (p : T),
        Eip1193.request t encode decode lookup m p = .err .JsNoEthereum) := by
  match lookup with
  | .ok (some eth) =>
      exact ⟨⟨fun _ => ⟨eth, rfl⟩, fun _ => rfl⟩, fun h => nomatch h⟩
  | .ok none =>
      refine ⟨⟨fun h => (nomatch h), ?_⟩, fun _ T R encode decode t m p => rfl⟩
      rintro ⟨eth, he⟩
      exact nomatch he
  | .error e =>
      refine ⟨⟨fun h => (nomatch h), ?_⟩, fun _ T R encode decode t m p => rfl⟩
      rintro ⟨eth, he⟩
      exact nomatch he

/-- Witness for C5 at the absent-capability lookup. -/
theorem availability_consistency_witness :
    Eip1193.request Eip1193.new encodeId decodeId (.ok none) "eth_accounts"
      (.arr []) = .err .JsNoEthereum :=
  (availability_consistency (.ok none)).2 rfl JsValue JsValue encodeId decodeId
    Eip1193.new "eth_accounts" (.arr [])

/-- Claim C6: a capability stub rejecting with the bare string `"boom"` makes
`request` return the opaque-host-failure error carrying exactly that string
(`JsValueError "boom"`). -/
theorem opaque_rejection_passthrough :
    Eip1193.request Eip1193.new encodeId decodeId
      (.ok (some (rejectCap (.str "boom")))) "eth_call" (.arr [])
      = .err (.JsValueError "boom") :=
  rfl

/-- Claim C7: the transport value carries no state (all its values are equal),
and each `request` resolves the capability fresh, so a call made while the
capability is present succeeds and the very next call made after the
capability is removed fails with `JsNoEthereum`. -/
theorem no_cross_call_caching :
    (∀ t1 t2 : Eip1193, t1 = t2) ∧
    ∀ (t : Eip1193) (m : String) (xs : List JsValue),
      Eip1193.request t encodeId decodeId (.ok (some echoCap)) m (.arr xs)
        = .ok (.arr xs) ∧
      Eip1193.request t encodeId decodeId (.ok none) m (.arr xs)
        = .err .JsNoEthereum :=
  ⟨fun _ _ => rfl, fun _ _ _ => ⟨rfl, rfl⟩⟩

/-- Claim C8: subscribing to `"accountsChanged"` succeeds and records the
registration, but the `Closure` wrapping the callback is a temporary dropped
when `on` returns (the code never stores or forgets it), so when the
capability later emits the event with payload `["0xabc"]` the invocation hits
a destroyed closure and raises instead of delivering the payload to the
caller's callback — the callback is invoked zero times, not once. -/
theorem listener_dropped_before_delivery :
    Eip1193.on Eip1193.new (.ok (some echoCap)) ⟨0, [], []⟩ "accountsChanged"
      = .ok ⟨1, [], [("accountsChanged", 0)]⟩ ∧
    ListenerState.fireEvent ⟨1, [], [("accountsChanged", 0)]⟩ "accountsChanged"
      (.arr [.str "0xabc"]) = .error "closure invoked after being dropped" := by
  refine ⟨rfl, ?_⟩
  simp [ListenerState.fireEvent, fireListeners]

/-- A structured JSON-RPC rejection value that is not a JSON-encoded string:
the object `{code: -32603, message: "Internal error"}`. -/
def internalError : JsValue :=
  .obj [("code", .num (-32603)), ("message", .str "Internal error")]

/-- Claim C9: there is a host rejection value that is not a JSON-encoded
string — a structured error object — on which the `From<JsValue>` conversion
panics (the `unwrap` at eip1193.rs:106), and with a stub rejecting with that
value `request` panics rather than returning, so the rejection-handling path
is not total; only string rejections convert successfully. -/
theorem rejection_conversion_not_total :
    Eip1193Error.from_js_value internalError = none ∧
    Eip1193.request Eip1193.new encodeId decodeId
      (.ok (some (rejectCap internalError))) "eth_call" (.arr [])
      = .panicked ∧
    ∀ s, Eip1193Error.from_js_value (.str s) = some (.JsValueError s) :=
  ⟨rfl, rfl, fun _ => rfl⟩

/-- Claim C10: a throwing capability lookup produces the same `JsNoEthereum`
as an absent capability, so a faulting lookup is indistinguishable from an
absent provider across `is_available`, `request` (for every type, encoder,
decoder, method and params) and `on`. -/
theorem faulting_lookup_indistinguishable (e : JsValue) (t t' : Eip1193)
    (T R : Type) (encode : T → Except String JsValue)
    (decode : JsValue → Option R) (m : String) (p : T)
    (st : ListenerState) (ev : String) :
    Ethereum.default (.error e) = .error .JsNoEthereum ∧
    Ethereum.default (.ok none) = .error .JsNoEthereum ∧
    Eip1193.is_available (.error e) = Eip1193.is_available (.ok none) ∧
    Eip1193.request t encode decode (.error e) m p
      = Eip1193.request t encode decode (.ok none) m p ∧
    Eip1193.on t' (.error e) st ev = Eip1193.on t' (.ok none) st ev :=
  ⟨rfl, rfl, rfl, rfl, rfl⟩
